import Mathlib

/-!
Shallow embedding of the frame aggregation, synchronization, scaling-method
selection and QoS throttling logic of gst/videomixer/videomixer.c.

GStreamer machine types are modelled as follows:
* GstClockTime (guint64) is a Nat; the invalid sentinel GST_CLOCK_TIME_NONE
  is 2^64 - 1 and unsigned arithmetic wraps modulo 2^64.
* gint64 fields (the per-pad queued counter, intervals) are Int, wrapping
  two's-complement style where the C code can overflow.
* gint fields (widths, frame-rate and pixel-aspect fractions) are Int; the
  only arithmetic on them is the cross multiplication at gint64 width,
  which cannot overflow for gint operands, so plain Int is exact.
* The transport layer (GstCollectPads) is modelled per pad as a list of
  incoming buffers: gst_collect_pads_peek returns the head without removing
  it, gst_collect_pads_pop removes the head.
-/

namespace VideoMixer

/-- Modulus of unsigned 64-bit arithmetic. -/
def U64MOD : Nat := 2 ^ 64

/-- GST_CLOCK_TIME_NONE, the invalid clock-time sentinel ((guint64)-1). -/
def clockTimeNone : Nat := 2 ^ 64 - 1

/-- GST_SECOND in nanoseconds. -/
def gstSecond : Nat := 1000000000

/-- G_MAXINT64. -/
def maxInt64 : Int := 2 ^ 63 - 1

/-- Wrap an Int into signed 64-bit two's-complement range. -/
def i64wrap (x : Int) : Int := (x + 2 ^ 63) % (2 ^ 64 : Int) - 2 ^ 63

/-- Wrap a Nat into unsigned 64-bit range. -/
def u64wrap (x : Nat) : Nat := x % U64MOD

/-- Reduce an Int to its unsigned 64-bit representation. -/
def intToU64 (x : Int) : Nat := (x % (U64MOD : Int)).toNat

/-- GST_CLOCK_TIME_IS_VALID on a guint64 clock time. -/
def timeValid (t : Nat) : Bool := t != clockTimeNone

/-- GST_CLOCK_TIME_IS_VALID applied to the gint64 queued counter: the value
is cast to guint64, so it is invalid exactly when it is -1. -/
def queuedValid (q : Int) : Bool := q != -1

/-- gst_util_uint64_scale_int: val * num / denom on unsigned 64-bit values
(exact 96-bit intermediate in C; callers here keep results far below 2^64). -/
def scaleInt (val num denom : Nat) : Nat := val * num / denom

/-- One input frame as delivered by the transport layer: a timestamp and a
duration, both GstClockTime. -/
structure Buffer where
  timestamp : Nat := clockTimeNone
  duration : Nat := clockTimeNone
deriving Repr, DecidableEq

/-- The slice of GstSegment state the mixer reads and writes (TIME format,
unit rate): start, stop (-1 when unset) and accumulated time. -/
structure Segment where
  start : Int := 0
  stop : Int := -1
  accum : Int := 0
deriving Repr, DecidableEq

/-- gst_segment_init for a TIME segment. -/
def segmentInit : Segment := {}

/-- Modelled from the spec: the external gst_segment_to_running_time at unit
rate maps a buffer timestamp inside the segment to start-relative time plus
the accumulated time, and is invalid outside the segment. -/
def segToRunningTime (seg : Segment) (pos : Nat) : Nat :=
  if pos = clockTimeNone then clockTimeNone
  else if (pos : Int) < seg.start then clockTimeNone
  else if seg.stop ≠ -1 ∧ seg.stop < (pos : Int) then clockTimeNone
  else intToU64 ((pos : Int) - seg.start + seg.accum)

/-- Scaling methods of GstVideoMixerMethod. -/
inductive ScaleMethod where
  | nearest
  | bilinear
  | fourtap
deriving Repr, DecidableEq

/-- One sink pad (GstVideoMixerPad together with its GstVideoMixerCollect):
negotiated input geometry and rates, the signed queued-duration counter, the
currently held buffer (mixcol->buffer), the collect segment, and the
transport-layer queue of not-yet-popped buffers. -/
structure Pad where
  id : Nat := 0
  in_width : Int := 0
  in_height : Int := 0
  fps_n : Int := 0
  fps_d : Int := 0
  par_n : Int := 0
  par_d : Int := 0
  queued : Int := 0
  buffer : Option Buffer := none
  segment : Segment := {}
  incoming : List Buffer := []
deriving Repr, DecidableEq

/-- Mixer-wide state (GstVideoMixer fields used by the aggregation core).
The master pointer is modelled by the id of the master pad. -/
structure Mixer where
  pads : List Pad := []
  master : Option Nat := none
  in_width : Int := 0
  in_height : Int := 0
  out_width : Int := 0
  out_height : Int := 0
  fps_n : Int := 0
  fps_d : Int := 0
  par_n : Int := 1
  par_d : Int := 1
  setcaps : Bool := false
  sendseg : Bool := false
  segment : Segment := {}
  segment_position : Int := 0
  proportion : Rat := 1 / 2
  earliest_time : Nat := clockTimeNone
  last_ts : Nat := 0
  last_duration : Nat := clockTimeNone
  flush_stop_pending : Bool := false
  fmt : Int := 0
  method : ScaleMethod := ScaleMethod.bilinear
  background : Int := 0
deriving Repr, DecidableEq

/-- gst_videomixer_update_qos: record a QoS observation.  The earliest
acceptable time is guint64 arithmetic on timestamp, diff and the output
interval, hence the reduction modulo 2^64. -/
def gst_videomixer_update_qos (mix : Mixer) (proportion : Rat) (diff : Int)
    (timestamp : Nat) : Mixer :=
  let mix := { mix with proportion := proportion }
  if timestamp ≠ clockTimeNone then
    if 0 < diff then
      { mix with earliest_time :=
          intToU64 ((timestamp : Int) + 2 * diff +
            (scaleInt gstSecond mix.fps_d.toNat mix.fps_n.toNat : Nat)) }
    else
      { mix with earliest_time := intToU64 ((timestamp : Int) + diff) }
  else
    { mix with earliest_time := clockTimeNone }

/-- gst_videomixer_reset_qos. -/
def gst_videomixer_reset_qos (mix : Mixer) : Mixer :=
  gst_videomixer_update_qos mix (1 / 2) 0 clockTimeNone

/-- gst_videomixer_do_qos: decide whether the frame at the given output
timestamp should be processed (true) or dropped (false). -/
def gst_videomixer_do_qos (mix : Mixer) (timestamp : Nat) : Bool :=
  if timestamp = clockTimeNone then true
  else if mix.earliest_time = clockTimeNone then true
  else
    let qostime := segToRunningTime mix.segment timestamp
    if qostime ≠ clockTimeNone ∧ qostime ≤ mix.earliest_time then false
    else true

/-- Accumulator of the gst_videomixer_set_master_geometry loop: running
width/height maxima, the fps and par of the current master, and the current
master pad itself. -/
structure Geometry where
  width : Int := 0
  height : Int := 0
  fps_n : Int := 0
  fps_d : Int := 0
  par_n : Int := 0
  par_d : Int := 0
  master : Option Pad := none
deriving Repr, DecidableEq

/-- One iteration of the gst_videomixer_set_master_geometry loop body. -/
def geometryStep (acc : Geometry) (p : Pad) : Geometry :=
  let acc := { acc with
    width := max acc.width p.in_width,
    height := max acc.height p.in_height }
  if (acc.fps_n = 0 ∧ acc.fps_d = 0) ∨
      acc.fps_n * p.fps_d < p.fps_n * acc.fps_d then
    { acc with
        fps_n := p.fps_n,
        fps_d := p.fps_d,
        par_n := p.par_n,
        par_d := p.par_d,
        master := some p }
  else acc

/-- The pure geometry computation of gst_videomixer_set_master_geometry. -/
def computeGeometry (pads : List Pad) : Geometry :=
  pads.foldl geometryStep {}

/-- gst_videomixer_set_master_geometry: recompute geometry and master and,
when the resulting tuple changed, flag renegotiation, flag a new segment,
reset QoS and store the new values. -/
def gst_videomixer_set_master_geometry (mix : Mixer) : Mixer :=
  let g := computeGeometry mix.pads
  let gm := g.master.map (fun p => p.id)
  if mix.master ≠ gm ∨ mix.in_width ≠ g.width ∨ mix.in_height ≠ g.height ∨
      mix.fps_n ≠ g.fps_n ∨ mix.fps_d ≠ g.fps_d ∨
      mix.par_n ≠ g.par_n ∨ mix.par_d ≠ g.par_d then
    let mix := { mix with setcaps := true, sendseg := true }
    let mix := gst_videomixer_reset_qos mix
    { mix with
        master := gm,
        in_width := g.width,
        in_height := g.height,
        fps_n := g.fps_n,
        fps_d := g.fps_d,
        par_n := g.par_n,
        par_d := g.par_d }
  else mix

/-- gst_videomixer_release_pad: remove the pad at position i from the sink
pad list and renegotiate geometry and master over the remaining pads (an
unknown pad only produces a warning). -/
def gst_videomixer_release_pad (mix : Mixer) (i : Nat) : Mixer :=
  if i < mix.pads.length then
    gst_videomixer_set_master_geometry { mix with pads := mix.pads.eraseIdx i }
  else mix

/-- Events and buffers the mixer pushes on its source pad during one
aggregation cycle. -/
inductive OutEvent where
  | flushStop
  | newSegment (start stop position : Int)
  | eos
  | pushBuffer (timestamp duration : Nat)
deriving Repr, DecidableEq

/-- GstFlowReturn values gst_videomixer_collected can produce (buffer
allocation and downstream push are assumed to succeed). -/
inductive FlowReturn where
  | ok
  | notNegotiated
  | wrongState
  | error
deriving Repr, DecidableEq

/-- The pushBuffer events of a cycle, as timestamp and duration pairs. -/
def pushedFrames (evs : List OutEvent) : List (Nat × Nat) :=
  evs.filterMap fun e =>
    match e with
    | OutEvent.pushBuffer t d => some (t, d)
    | _ => none

/-- The fetch step of gst_videomixer_fill_queues for one pad: when no buffer
is held, peek the transport queue; on success hold the buffer, derive its
duration (explicit, else 1/rate, else invalid) and account it into the
queued counter, an invalid duration turning a zero counter invalid. -/
def fetchPad (p : Pad) : Pad :=
  match p.buffer with
  | some _ => p
  | none =>
    match p.incoming.head? with
    | none => p
    | some buf =>
      let duration :=
        if timeValid buf.duration then buf.duration
        else if p.fps_n = 0 then clockTimeNone
        else scaleInt gstSecond p.fps_d.toNat p.fps_n.toNat
      let p := { p with buffer := some buf }
      if timeValid duration then
        { p with queued := i64wrap (p.queued + (duration : Int)) }
      else if p.queued = 0 then { p with queued := -1 }
      else p

/-- A pad keeps the cycle away from end-of-stream exactly when it holds a
buffer and its queued counter is a valid clock time. -/
def padAlive (p : Pad) : Bool := p.buffer.isSome && queuedValid p.queued

/-- Accumulator of the gst_videomixer_fill_queues loop. -/
structure FillAcc where
  pads : List Pad := []
  sendseg : Bool := false
  segment : Segment := {}
  events : List OutEvent := []
  eos : Bool := true
deriving Repr, DecidableEq

/-- One iteration of the gst_videomixer_fill_queues loop: fetch, then, for
the master pad while a segment send is pending, derive and push the new
output segment (the external gst_segment_set_newsegment is modelled as
replacing start and stop), then fold the pad into the end-of-stream check. -/
def fillStep (master : Option Nat) (segpos : Int) (acc : FillAcc) (p : Pad) :
    FillAcc :=
  let p := fetchPad p
  let acc :=
    if acc.sendseg ∧ master = some p.id then
      let seg := p.segment
      let start := seg.accum
      let stop :=
        if seg.stop ≠ -1 ∧ seg.start ≠ -1 then start + (seg.stop - seg.start)
        else -1
      { acc with
          segment := { start := start, stop := stop, accum := acc.segment.accum },
          events := acc.events ++ [OutEvent.newSegment start stop (start + segpos)],
          sendseg := false }
    else acc
  let acc := if padAlive p then { acc with eos := false } else acc
  { acc with pads := acc.pads ++ [p] }

/-- gst_videomixer_fill_queues: fetch a buffer for every pad, send a pending
segment from the master, and report whether every pad is exhausted. -/
def gst_videomixer_fill_queues (mix : Mixer) : Mixer × Bool × List OutEvent :=
  let acc := mix.pads.foldl (fillStep mix.master mix.segment_position)
    { pads := [], sendseg := mix.sendseg, segment := mix.segment,
      events := [], eos := true }
  ({ mix with pads := acc.pads, sendseg := acc.sendseg, segment := acc.segment },
   acc.eos, acc.events)

/-- Look up the live master pad (the C code follows the mix->master pointer;
pads are identified by id). -/
def findMaster (mix : Mixer) : Option Pad :=
  mix.master.bind fun mid => mix.pads.find? fun p => p.id == mid

/-- The per-pad action of gst_videomixer_update_queues: a pad holding a
buffer has the interval subtracted from its queued counter and, when the
counter drops to zero or below, its held buffer is released and the queued
transport buffer popped; a pad holding no buffer is left untouched. -/
def updateQueuesPad (interval : Int) (p : Pad) : Pad :=
  if p.buffer.isSome then
    let q := i64wrap (p.queued - interval)
    if q ≤ 0 then
      { p with queued := q, buffer := none, incoming := p.incoming.tail }
    else { p with queued := q }
  else p

/-- gst_videomixer_update_queues: derive one output interval from the
master's queued counter (falling back to 1/output-rate, or G_MAXINT64 at
rate zero) and apply it to every pad.  The C code dereferences mix->master
unconditionally; a missing master leaves the state unchanged here and is
unreachable once negotiation has produced a master. -/
def gst_videomixer_update_queues (mix : Mixer) : Mixer :=
  match findMaster mix with
  | none => mix
  | some mp =>
    let interval :=
      if mp.queued ≤ 0 then
        if mix.fps_n = 0 then maxInt64
        else ((scaleInt gstSecond mix.fps_d.toNat mix.fps_n.toNat : Nat) : Int)
      else mp.queued
    { mix with pads := mix.pads.map (updateQueuesPad interval) }

/-- The flush-stop-pending test-and-clear at the top of
gst_videomixer_collected. -/
def clearFlushStop (mix : Mixer) : Mixer × List OutEvent :=
  if mix.flush_stop_pending then
    ({ mix with flush_stop_pending := false }, [OutEvent.flushStop])
  else (mix, [])

/-- The caps update of gst_videomixer_collected: when the negotiated
geometry differs from the output geometry or setcaps is pending, adopt the
negotiated geometry as output geometry and clear the flag. -/
def negotiateCaps (mix : Mixer) : Mixer :=
  if mix.in_width ≠ mix.out_width ∨ mix.in_height ≠ mix.out_height ∨
      mix.setcaps then
    { mix with
        out_width := mix.in_width,
        out_height := mix.in_height,
        setcaps := false }
  else mix

/-- Timestamp and duration derivation of gst_videomixer_collected: from the
master's held buffer via its collect segment, else the stored last output
timestamp and duration. -/
def deriveTimestamp (mix : Mixer) (mp : Pad) : Nat × Nat :=
  match mp.buffer with
  | some b => (segToRunningTime mp.segment b.timestamp, b.duration)
  | none => (mix.last_ts, mix.last_duration)

/-- The last_ts and last_duration bookkeeping of gst_videomixer_collected:
a held master buffer overwrites both, then a valid duration advances
last_ts by the duration (guint64 addition). -/
def recordTimes (mix : Mixer) (mp : Pad) (td : Nat × Nat) : Mixer :=
  let mix :=
    if mp.buffer.isSome then { mix with last_ts := td.1, last_duration := td.2 }
    else mix
  if timeValid td.2 then { mix with last_ts := u64wrap (mix.last_ts + td.2) }
  else mix

/-- gst_videomixer_collected: one aggregation cycle.  Buffer allocation,
compositing and the downstream push are external; the pushed output frame is
recorded as a pushBuffer event.  A missing master after negotiation would be
a null dereference in C and yields the error flow here. -/
def gst_videomixer_collected (mix : Mixer) : Mixer × FlowReturn × List OutEvent :=
  if mix.in_width = 0 then (mix, FlowReturn.notNegotiated, [])
  else
    let f := clearFlushStop mix
    let fq := gst_videomixer_fill_queues f.1
    let evs := f.2 ++ fq.2.2
    if fq.2.1 then (fq.1, FlowReturn.wrongState, evs ++ [OutEvent.eos])
    else
      let m3 := negotiateCaps fq.1
      match findMaster m3 with
      | none => (m3, FlowReturn.error, evs)
      | some mp =>
        let td := deriveTimestamp m3 mp
        let m4 := recordTimes m3 mp td
        if gst_videomixer_do_qos m4 td.1 then
          (gst_videomixer_update_queues m4, FlowReturn.ok,
           evs ++ [OutEvent.pushBuffer td.1 td.2])
        else
          (gst_videomixer_update_queues m4, FlowReturn.ok, evs)

/-- The effective-method selection at the top of gst_video_scale_transform:
input width 1 forces nearest, then a 4-tap request on an input smaller than
4 pixels in either dimension falls back to bilinear. -/
def gst_video_scale_transform_method (method : ScaleMethod)
    (in_width in_height : Int) : ScaleMethod :=
  let m := if in_width = 1 then ScaleMethod.nearest else method
  if m = ScaleMethod.fourtap ∧ (in_width < 4 ∨ in_height < 4) then
    ScaleMethod.bilinear
  else m

/-- gst_videomixer_reset: restore the mixer-wide fields to their startup
values (gst_videomixer_init itself calls this function), reset QoS, and
release every pad's held buffer via gst_videomixer_collect_free.  The
per-pad queued counters are not touched. -/
def gst_videomixer_reset (mix : Mixer) : Mixer :=
  let mix := { mix with
    in_width := 0,
    in_height := 0,
    out_width := 0,
    out_height := 0,
    fps_n := 0,
    fps_d := 0,
    par_n := 1,
    par_d := 1,
    setcaps := false,
    sendseg := false,
    segment_position := 0,
    segment := segmentInit }
  let mix := gst_videomixer_reset_qos mix
  { mix with
      fmt := 0,
      last_ts := 0,
      last_duration := clockTimeNone,
      pads := mix.pads.map (fun p => { p with buffer := none }),
      flush_stop_pending := false,
      method := ScaleMethod.bilinear }

/-- The master selection described by the specification for the claims: a
port becomes the current choice when it is the first port considered or the
current choice has rate 0/0, and otherwise exactly when it is strictly
slower under cross multiplication (candidate.fps_n * current.fps_d <
current.fps_n * candidate.fps_d); ties keep the earlier port.  The result
carries the chosen port's id and rate. -/
def selectSlowestStep (cur : Option (Nat × Int × Int)) (p : Pad) :
    Option (Nat × Int × Int) :=
  match cur with
  | none => some (p.id, p.fps_n, p.fps_d)
  | some (j, bn, bd) =>
    if (bn = 0 ∧ bd = 0) ∨ p.fps_n * bd < bn * p.fps_d then
      some (p.id, p.fps_n, p.fps_d)
    else some (j, bn, bd)

/-- Fold of selectSlowestStep over the pad list. -/
def selectSlowest (pads : List Pad) : Option (Nat × Int × Int) :=
  pads.foldl selectSlowestStep none

/-- The master selection the code actually performs, stated independently of
the geometry fold: a port becomes the current choice when it is the first
port considered or the current choice has rate 0/0, and otherwise exactly
when it is strictly faster under cross multiplication (current.fps_n *
candidate.fps_d < candidate.fps_n * current.fps_d); ties keep the earlier
port. -/
def selectFastestStep (cur : Option (Nat × Int × Int)) (p : Pad) :
    Option (Nat × Int × Int) :=
  match cur with
  | none => some (p.id, p.fps_n, p.fps_d)
  | some (j, bn, bd) =>
    if (bn = 0 ∧ bd = 0) ∨ bn * p.fps_d < p.fps_n * bd then
      some (p.id, p.fps_n, p.fps_d)
    else some (j, bn, bd)

/-- Fold of selectFastestStep over the pad list. -/
def selectFastest (pads : List Pad) : Option (Nat × Int × Int) :=
  pads.foldl selectFastestStep none

section Lemmas

lemma fillStep_pads_eq (m : Option Nat) (sp : Int) (acc : FillAcc) (p : Pad) :
    (fillStep m sp acc p).pads = acc.pads ++ [fetchPad p] := by
  unfold fillStep
  dsimp only
  split <;> split <;> rfl

lemma fillStep_eos_eq (m : Option Nat) (sp : Int) (acc : FillAcc) (p : Pad) :
    (fillStep m sp acc p).eos = (acc.eos && !padAlive (fetchPad p)) := by
  unfold fillStep
  dsimp only
  by_cases h1 : acc.sendseg = true ∧ m = some (fetchPad p).id <;>
    cases h2 : padAlive (fetchPad p) <;> simp [h1, h2]

lemma fillStep_events_eq (m : Option Nat) (sp : Int) (acc : FillAcc) (p : Pad) :
    (fillStep m sp acc p).events = acc.events ∨
    ∃ s t q, (fillStep m sp acc p).events =
      acc.events ++ [OutEvent.newSegment s t q] := by
  unfold fillStep
  dsimp only
  by_cases h1 : acc.sendseg = true ∧ m = some (fetchPad p).id
  · refine Or.inr ⟨(fetchPad p).segment.accum,
      (if (fetchPad p).segment.stop ≠ -1 ∧ (fetchPad p).segment.start ≠ -1 then
        (fetchPad p).segment.accum +
          ((fetchPad p).segment.stop - (fetchPad p).segment.start)
       else -1),
      (fetchPad p).segment.accum + sp, ?_⟩
    cases h2 : padAlive (fetchPad p) <;> simp [h1, h2]
  · refine Or.inl ?_
    cases h2 : padAlive (fetchPad p) <;> simp [h1, h2]

lemma foldl_fill_pads (m : Option Nat) (sp : Int) (l : List Pad) :
    ∀ acc : FillAcc,
      (l.foldl (fillStep m sp) acc).pads = acc.pads ++ l.map fetchPad := by
  induction l with
  | nil => intro acc; simp
  | cons p l ih =>
    intro acc
    rw [List.foldl_cons, ih, fillStep_pads_eq]
    simp

lemma foldl_fill_eos (m : Option Nat) (sp : Int) (l : List Pad) :
    ∀ acc : FillAcc,
      (l.foldl (fillStep m sp) acc).eos =
        (acc.eos && l.all fun p => !padAlive (fetchPad p)) := by
  induction l with
  | nil => intro acc; simp
  | cons p l ih =>
    intro acc
    rw [List.foldl_cons, ih, fillStep_eos_eq]
    simp [Bool.and_assoc]

lemma foldl_fill_events_mem (m : Option Nat) (sp : Int) (l : List Pad) :
    ∀ (acc : FillAcc) (e : OutEvent),
      e ∈ (l.foldl (fillStep m sp) acc).events →
      e ∈ acc.events ∨ ∃ s t q, e = OutEvent.newSegment s t q := by
  induction l with
  | nil => intro acc e he; exact Or.inl he
  | cons p l ih =>
    intro acc e he
    rcases ih (fillStep m sp acc p) e he with h | h
    · rcases fillStep_events_eq m sp acc p with hev | ⟨s, t, q, hev⟩
      · rw [hev] at h
        exact Or.inl h
      · rw [hev] at h
        rcases List.mem_append.mp h with h | h
        · exact Or.inl h
        · right
          refine ⟨s, t, q, ?_⟩
          simpa using h
    · exact Or.inr h

lemma fill_queues_pads (mix : Mixer) :
    (gst_videomixer_fill_queues mix).1.pads = mix.pads.map fetchPad := by
  unfold gst_videomixer_fill_queues
  dsimp only
  rw [foldl_fill_pads]
  simp

lemma fill_queues_eos (mix : Mixer) :
    (gst_videomixer_fill_queues mix).2.1 =
      mix.pads.all fun p => !padAlive (fetchPad p) := by
  unfold gst_videomixer_fill_queues
  dsimp only
  rw [foldl_fill_eos]
  simp

lemma fill_queues_events_mem (mix : Mixer) (e : OutEvent)
    (he : e ∈ (gst_videomixer_fill_queues mix).2.2) :
    ∃ s t q, e = OutEvent.newSegment s t q := by
  unfold gst_videomixer_fill_queues at he
  dsimp only at he
  rcases foldl_fill_events_mem _ _ _ _ _ he with h | h
  · simp at h
  · exact h

lemma pushedFrames_append (a b : List OutEvent) :
    pushedFrames (a ++ b) = pushedFrames a ++ pushedFrames b := by
  unfold pushedFrames
  exact List.filterMap_append a b _

lemma pushedFrames_eq_nil (l : List OutEvent)
    (h : ∀ e ∈ l, (∃ s t q, e = OutEvent.newSegment s t q) ∨ e = OutEvent.flushStop) :
    pushedFrames l = [] := by
  induction l with
  | nil => rfl
  | cons e l ih =>
    have ht : pushedFrames l = [] :=
      ih fun x hx => h x (List.mem_cons_of_mem e hx)
    have he := h e (List.mem_cons_self e l)
    unfold pushedFrames at ht ⊢
    rcases he with ⟨s, t, q, rfl⟩ | rfl <;> simp [List.filterMap_cons, ht]

lemma fill_queues_pushedFrames (mix : Mixer) :
    pushedFrames (gst_videomixer_fill_queues mix).2.2 = [] := by
  refine pushedFrames_eq_nil _ fun e he => ?_
  rcases fill_queues_events_mem mix e he with ⟨s, t, q, h⟩
  exact Or.inl ⟨s, t, q, h⟩

lemma fill_queues_eos_not_mem (mix : Mixer) :
    OutEvent.eos ∉ (gst_videomixer_fill_queues mix).2.2 := by
  intro hmem
  rcases fill_queues_events_mem mix _ hmem with ⟨s, t, q, h⟩
  cases h

lemma clearFlushStop_pushedFrames (mix : Mixer) :
    pushedFrames (clearFlushStop mix).2 = [] := by
  unfold clearFlushStop
  split <;> rfl

lemma clearFlushStop_eos_not_mem (mix : Mixer) :
    OutEvent.eos ∉ (clearFlushStop mix).2 := by
  unfold clearFlushStop
  split <;> simp

lemma clearFlushStop_pads (mix : Mixer) :
    (clearFlushStop mix).1.pads = mix.pads := by
  unfold clearFlushStop
  split <;> rfl

lemma update_queues_last_ts (mix : Mixer) :
    (gst_videomixer_update_queues mix).last_ts = mix.last_ts := by
  unfold gst_videomixer_update_queues
  cases h : findMaster mix <;> simp

lemma geometryStep_width (acc : Geometry) (p : Pad) :
    (geometryStep acc p).width = max acc.width p.in_width := by
  unfold geometryStep
  dsimp only
  split <;> rfl

lemma geometryStep_height (acc : Geometry) (p : Pad) :
    (geometryStep acc p).height = max acc.height p.in_height := by
  unfold geometryStep
  dsimp only
  split <;> rfl

lemma foldl_geom_width_mono (l : List Pad) :
    ∀ acc : Geometry, acc.width ≤ (l.foldl geometryStep acc).width := by
  induction l with
  | nil => intro acc; simp
  | cons p l ih =>
    intro acc
    rw [List.foldl_cons]
    refine le_trans ?_ (ih (geometryStep acc p))
    rw [geometryStep_width]
    exact le_max_left _ _

lemma foldl_geom_height_mono (l : List Pad) :
    ∀ acc : Geometry, acc.height ≤ (l.foldl geometryStep acc).height := by
  induction l with
  | nil => intro acc; simp
  | cons p l ih =>
    intro acc
    rw [List.foldl_cons]
    refine le_trans ?_ (ih (geometryStep acc p))
    rw [geometryStep_height]
    exact le_max_left _ _

lemma foldl_geom_width_ge (l : List Pad) :
    ∀ (acc : Geometry) (p : Pad), p ∈ l →
      p.in_width ≤ (l.foldl geometryStep acc).width := by
  induction l with
  | nil => intro acc p hp; cases hp
  | cons q l ih =>
    intro acc p hp
    rw [List.foldl_cons]
    rcases List.mem_cons.mp hp with rfl | hp
    · refine le_trans ?_ (foldl_geom_width_mono l (geometryStep acc p))
      rw [geometryStep_width]
      exact le_max_right _ _
    · exact ih (geometryStep acc q) p hp

lemma foldl_geom_height_ge (l : List Pad) :
    ∀ (acc : Geometry) (p : Pad), p ∈ l →
      p.in_height ≤ (l.foldl geometryStep acc).height := by
  induction l with
  | nil => intro acc p hp; cases hp
  | cons q l ih =>
    intro acc p hp
    rw [List.foldl_cons]
    rcases List.mem_cons.mp hp with rfl | hp
    · refine le_trans ?_ (foldl_geom_height_mono l (geometryStep acc p))
      rw [geometryStep_height]
      exact le_max_right _ _
    · exact ih (geometryStep acc q) p hp

lemma foldl_geom_width_attained (l : List Pad) :
    ∀ acc : Geometry, (l.foldl geometryStep acc).width = acc.width ∨
      ∃ p ∈ l, (l.foldl geometryStep acc).width = p.in_width := by
  induction l with
  | nil => intro acc; exact Or.inl rfl
  | cons q l ih =>
    intro acc
    rw [List.foldl_cons]
    rcases ih (geometryStep acc q) with h | ⟨p, hp, h⟩
    · rw [h, geometryStep_width]
      rcases max_choice acc.width q.in_width with hm | hm
      · exact Or.inl hm
      · exact Or.inr ⟨q, List.mem_cons_self q l, hm⟩
    · exact Or.inr ⟨p, List.mem_cons_of_mem q hp, h⟩

lemma foldl_geom_height_attained (l : List Pad) :
    ∀ acc : Geometry, (l.foldl geometryStep acc).height = acc.height ∨
      ∃ p ∈ l, (l.foldl geometryStep acc).height = p.in_height := by
  induction l with
  | nil => intro acc; exact Or.inl rfl
  | cons q l ih =>
    intro acc
    rw [List.foldl_cons]
    rcases ih (geometryStep acc q) with h | ⟨p, hp, h⟩
    · rw [h, geometryStep_height]
      rcases max_choice acc.height q.in_height with hm | hm
      · exact Or.inl hm
      · exact Or.inr ⟨q, List.mem_cons_self q l, hm⟩
    · exact Or.inr ⟨p, List.mem_cons_of_mem q hp, h⟩

/-- Invariant joining the geometry fold with the standalone fastest-rate
selection: the selection mirrors the accumulator's master, and the
accumulator's rate and par fields are the master's fields. -/
def GeomCur (acc : Geometry) (cur : Option (Nat × Int × Int)) : Prop :=
  cur = acc.master.map (fun p => (p.id, p.fps_n, p.fps_d)) ∧
  (acc.master = none → acc.fps_n = 0 ∧ acc.fps_d = 0) ∧
  ∀ q, acc.master = some q →
    acc.fps_n = q.fps_n ∧ acc.fps_d = q.fps_d ∧
    acc.par_n = q.par_n ∧ acc.par_d = q.par_d

lemma geomCur_step (acc : Geometry) (cur : Option (Nat × Int × Int)) (p : Pad)
    (h : GeomCur acc cur) :
    GeomCur (geometryStep acc p) (selectFastestStep cur p) := by
  obtain ⟨hcur, hnone, hsome⟩ := h
  cases hm : acc.master with
  | none =>
    obtain ⟨hn0, hd0⟩ := hnone hm
    have hc : cur = none := by rw [hcur, hm]; rfl
    subst hc
    unfold geometryStep selectFastestStep
    dsimp only
    rw [if_pos (Or.inl ⟨hn0, hd0⟩)]
    refine ⟨rfl, ?_, ?_⟩
    · intro h
      cases h
    · intro q hq
      cases hq
      exact ⟨rfl, rfl, rfl, rfl⟩
  | some q =>
    obtain ⟨hfn, hfd, hpn, hpd⟩ := hsome q hm
    have hc : cur = some (q.id, q.fps_n, q.fps_d) := by rw [hcur, hm]; rfl
    subst hc
    unfold geometryStep selectFastestStep
    dsimp only
    by_cases hcond : (acc.fps_n = 0 ∧ acc.fps_d = 0) ∨
        acc.fps_n * p.fps_d < p.fps_n * acc.fps_d
    · rw [if_pos hcond, if_pos (by rw [← hfn, ← hfd]; exact hcond)]
      refine ⟨rfl, ?_, ?_⟩
      · intro h
        cases h
      · intro r hr
        cases hr
        exact ⟨rfl, rfl, rfl, rfl⟩
    · rw [if_neg hcond, if_neg (by rw [← hfn, ← hfd]; exact hcond)]
      refine ⟨by rw [hm]; rfl, ?_, ?_⟩
      · intro h
        rw [h] at hm
        cases hm
      · intro r hr
        rw [hm] at hr
        cases hr
        exact ⟨hfn, hfd, hpn, hpd⟩

lemma geomCur_fold (l : List Pad) :
    ∀ (acc : Geometry) (cur : Option (Nat × Int × Int)), GeomCur acc cur →
      GeomCur (l.foldl geometryStep acc) (l.foldl selectFastestStep cur) := by
  induction l with
  | nil => intro acc cur h; exact h
  | cons p l ih =>
    intro acc cur h
    rw [List.foldl_cons, List.foldl_cons]
    exact ih _ _ (geomCur_step acc cur p h)

lemma computeGeometry_geomCur (pads : List Pad) :
    GeomCur (computeGeometry pads) (selectFastest pads) := by
  unfold computeGeometry selectFastest
  refine geomCur_fold pads _ _ ?_
  exact ⟨rfl, fun _ => ⟨rfl, rfl⟩, fun q hq => by cases hq⟩

lemma foldl_geom_master_mem (l : List Pad) :
    ∀ (acc : Geometry) (q : Pad), (l.foldl geometryStep acc).master = some q →
      acc.master = some q ∨ q ∈ l := by
  induction l with
  | nil => intro acc q h; exact Or.inl h
  | cons p l ih =>
    intro acc q h
    rw [List.foldl_cons] at h
    rcases ih (geometryStep acc p) q h with h2 | h2
    · unfold geometryStep at h2
      dsimp only at h2
      revert h2
      split
      · intro h2
        cases h2
        exact Or.inr (List.mem_cons_self _ _)
      · intro h2
        exact Or.inl h2
    · exact Or.inr (List.mem_cons_of_mem p h2)

lemma foldl_geom_master_isSome (l : List Pad) :
    ∀ acc : Geometry, acc.master.isSome →
      (l.foldl geometryStep acc).master.isSome := by
  induction l with
  | nil => intro acc h; exact h
  | cons p l ih =>
    intro acc h
    rw [List.foldl_cons]
    refine ih (geometryStep acc p) ?_
    unfold geometryStep
    dsimp only
    split
    · rfl
    · exact h

lemma computeGeometry_master_isSome (pads : List Pad) (h : pads ≠ []) :
    (computeGeometry pads).master.isSome := by
  cases pads with
  | nil => exact absurd rfl h
  | cons p l =>
    unfold computeGeometry
    rw [List.foldl_cons]
    refine foldl_geom_master_isSome l _ ?_
    unfold geometryStep
    dsimp only
    rw [if_pos (Or.inl ⟨rfl, rfl⟩)]
    rfl

/-- Field-level description of gst_videomixer_set_master_geometry: whether
or not the change guard fires, the resulting mixer carries exactly the
recomputed geometry, and the pad list is untouched. -/
lemma set_master_geometry_fields (mix : Mixer) :
    (gst_videomixer_set_master_geometry mix).pads = mix.pads ∧
    (gst_videomixer_set_master_geometry mix).master =
      (computeGeometry mix.pads).master.map (fun p => p.id) ∧
    (gst_videomixer_set_master_geometry mix).in_width =
      (computeGeometry mix.pads).width ∧
    (gst_videomixer_set_master_geometry mix).in_height =
      (computeGeometry mix.pads).height ∧
    (gst_videomixer_set_master_geometry mix).fps_n =
      (computeGeometry mix.pads).fps_n ∧
    (gst_videomixer_set_master_geometry mix).fps_d =
      (computeGeometry mix.pads).fps_d ∧
    (gst_videomixer_set_master_geometry mix).par_n =
      (computeGeometry mix.pads).par_n ∧
    (gst_videomixer_set_master_geometry mix).par_d =
      (computeGeometry mix.pads).par_d := by
  unfold gst_videomixer_set_master_geometry
  dsimp only
  split
  · exact ⟨rfl, rfl, rfl, rfl, rfl, rfl, rfl, rfl⟩
  · rename_i hguard
    push_neg at hguard
    obtain ⟨h1, h2, h3, h4, h5, h6, h7⟩ := hguard
    exact ⟨rfl, h1, h2, h3, h4, h5, h6, h7⟩

lemma recordTimes_last_ts (mix : Mixer) (mp : Pad) (td : Nat × Nat)
    (hdur : td.2 ≠ clockTimeNone) :
    (recordTimes mix mp td).last_ts =
      u64wrap ((if mp.buffer.isSome then td.1 else mix.last_ts) + td.2) := by
  unfold recordTimes
  cases hb : mp.buffer.isSome <;> simp [hb, timeValid, hdur]

/-- On a cycle that passes the negotiation guard, is not end-of-stream and
finds a master, gst_videomixer_collected reduces to the QoS decision over
the derived timestamp: queue accounting runs either way, and only the
process branch pushes the output frame. -/
lemma collected_process_eq (mix m3 : Mixer) (mp : Pad)
    (h : mix.in_width ≠ 0)
    (heos : (gst_videomixer_fill_queues (clearFlushStop mix).1).2.1 = false)
    (hm3 : m3 = negotiateCaps (gst_videomixer_fill_queues (clearFlushStop mix).1).1)
    (hmp : findMaster m3 = some mp) :
    gst_videomixer_collected mix =
      (if gst_videomixer_do_qos (recordTimes m3 mp (deriveTimestamp m3 mp))
            (deriveTimestamp m3 mp).1 then
        (gst_videomixer_update_queues (recordTimes m3 mp (deriveTimestamp m3 mp)),
         FlowReturn.ok,
         (clearFlushStop mix).2 ++
           (gst_videomixer_fill_queues (clearFlushStop mix).1).2.2 ++
           [OutEvent.pushBuffer (deriveTimestamp m3 mp).1 (deriveTimestamp m3 mp).2])
      else
        (gst_videomixer_update_queues (recordTimes m3 mp (deriveTimestamp m3 mp)),
         FlowReturn.ok,
         (clearFlushStop mix).2 ++
           (gst_videomixer_fill_queues (clearFlushStop mix).1).2.2)) := by
  subst hm3
  unfold gst_videomixer_collected
  rw [if_neg h]
  dsimp only
  rw [heos]
  rw [if_neg (by simp : ¬(false = true))]
  rw [hmp]

end Lemmas

/-- C8: for every scaling invocation, the effective scaling method is the
configured method, except that an input width of 1 forces nearest-neighbor,
and otherwise a 4-tap request with input width or height below 4 pixels
falls back to bilinear. -/
theorem scale_method_selection (m : ScaleMethod) (w h : Int) :
    gst_video_scale_transform_method m w h =
      (if w = 1 then ScaleMethod.nearest
       else if m = ScaleMethod.fourtap ∧ (w < 4 ∨ h < 4) then ScaleMethod.bilinear
       else m) := by
  unfold gst_video_scale_transform_method
  by_cases hw : w = 1
  · subst hw
    simp
  · simp [hw]

/-- C5: recording a QoS observation with a valid reported timestamp sets the
earliest acceptable timestamp to timestamp + 2*diff + one output interval
when diff is positive, and to timestamp + diff otherwise (stated below the
unsigned wrap bounds); a QoS reset leaves proportion 1/2 and the earliest
acceptable timestamp invalid. -/
theorem qos_observation_update (mix : Mixer) (prop : Rat) (diff : Int)
    (t : Nat) (ht : t ≠ clockTimeNone) (htb : t < U64MOD) :
    (gst_videomixer_update_qos mix prop diff t).proportion = prop ∧
    (0 < diff →
      (t : Int) + 2 * diff +
          ((scaleInt gstSecond mix.fps_d.toNat mix.fps_n.toNat : Nat) : Int) <
        (U64MOD : Int) →
      (gst_videomixer_update_qos mix prop diff t).earliest_time =
        ((t : Int) + 2 * diff +
          ((scaleInt gstSecond mix.fps_d.toNat mix.fps_n.toNat : Nat) : Int)).toNat) ∧
    (diff ≤ 0 → 0 ≤ (t : Int) + diff →
      (gst_videomixer_update_qos mix prop diff t).earliest_time =
        ((t : Int) + diff).toNat) ∧
    (gst_videomixer_reset_qos mix).proportion = 1 / 2 ∧
    (gst_videomixer_reset_qos mix).earliest_time = clockTimeNone := by
  unfold gst_videomixer_update_qos
  dsimp only
  rw [if_pos ht]
  refine ⟨?_, ?_, ?_, ?_, ?_⟩
  · by_cases hd : 0 < diff
    · rw [if_pos hd]
    · rw [if_neg hd]
  · intro hd hb
    rw [if_pos hd]
    dsimp only
    unfold intToU64
    have h0 : 0 ≤ (t : Int) + 2 * diff +
        ((scaleInt gstSecond mix.fps_d.toNat mix.fps_n.toNat : Nat) : Int) := by
      positivity
    rw [Int.emod_eq_of_lt h0 (by exact_mod_cast hb)]
  · intro hd hb
    rw [if_neg (by omega : ¬ 0 < diff)]
    dsimp only
    unfold intToU64
    have hlt : (t : Int) + diff < (U64MOD : Int) := by
      have : (t : Int) < (U64MOD : Int) := by exact_mod_cast htb
      omega
    rw [Int.emod_eq_of_lt hb hlt]
  · simp [gst_videomixer_reset_qos, gst_videomixer_update_qos]
  · simp [gst_videomixer_reset_qos, gst_videomixer_update_qos]

/-- Witness mixer for the QoS observation update: a 10 fps output. -/
def qosWitnessMix : Mixer := { fps_n := 10, fps_d := 1 }

/-- Witness for C5 at a concrete late observation: proportion is stored and
the earliest acceptable timestamp is timestamp + 2*diff + interval. -/
theorem qos_observation_update_witness :
    ((1000000000 : Nat) ≠ clockTimeNone) ∧
    (gst_videomixer_update_qos qosWitnessMix (3 / 4) 20000000 1000000000).proportion =
      3 / 4 ∧
    (gst_videomixer_update_qos qosWitnessMix (3 / 4) 20000000 1000000000).earliest_time =
      (((1000000000 : Nat) : Int) + 2 * 20000000 +
        ((scaleInt gstSecond qosWitnessMix.fps_d.toNat qosWitnessMix.fps_n.toNat : Nat) :
          Int)).toNat := by
  have h := qos_observation_update qosWitnessMix (3 / 4) 20000000 1000000000
    (by decide) (by decide)
  exact ⟨by decide, h.1, h.2.1 (by decide) (by decide)⟩

/-- Per-pad behavior of the queue accounting step, for any interval. -/
lemma updateQueuesPad_spec (interval : Int) (p : Pad) :
    (p.buffer = none → updateQueuesPad interval p = p) ∧
    (p.buffer.isSome →
      (updateQueuesPad interval p).queued = i64wrap (p.queued - interval) ∧
      (i64wrap (p.queued - interval) ≤ 0 →
        (updateQueuesPad interval p).buffer = none ∧
        (updateQueuesPad interval p).incoming = p.incoming.tail) ∧
      (0 < i64wrap (p.queued - interval) →
        (updateQueuesPad interval p).buffer = p.buffer ∧
        (updateQueuesPad interval p).incoming = p.incoming)) := by
  constructor
  · intro hb
    unfold updateQueuesPad
    simp [hb]
  · intro hb
    unfold updateQueuesPad
    rw [if_pos hb]
    dsimp only
    by_cases hle : i64wrap (p.queued - interval) ≤ 0
    · rw [if_pos hle]
      exact ⟨rfl, fun _ => ⟨rfl, rfl⟩, fun hgt => absurd hle (by omega)⟩
    · rw [if_neg hle]
      exact ⟨rfl, fun hc => absurd hc hle, fun _ => ⟨rfl, rfl⟩⟩

/-- C4 (amended): queue accounting derives one output interval from the
master's queued counter when positive, else from the output rate (unbounded
at rate 0), and subtracts it from the counter of every pad currently
holding a buffer; a counter dropping to zero or below releases the held
buffer and pops the transport queue.  Pads holding no buffer are left
untouched. -/
theorem update_queues_accounting (mix : Mixer) (mp : Pad)
    (hmp : findMaster mix = some mp) :
    ∃ interval : Int,
      (0 < mp.queued → interval = mp.queued) ∧
      (mp.queued ≤ 0 → mix.fps_n = 0 → interval = maxInt64) ∧
      (mp.queued ≤ 0 → mix.fps_n ≠ 0 → interval =
        ((scaleInt gstSecond mix.fps_d.toNat mix.fps_n.toNat : Nat) : Int)) ∧
      (gst_videomixer_update_queues mix).pads =
        mix.pads.map (updateQueuesPad interval) ∧
      ∀ p ∈ mix.pads,
        (p.buffer = none → updateQueuesPad interval p = p) ∧
        (p.buffer.isSome →
          (updateQueuesPad interval p).queued = i64wrap (p.queued - interval) ∧
          (i64wrap (p.queued - interval) ≤ 0 →
            (updateQueuesPad interval p).buffer = none ∧
            (updateQueuesPad interval p).incoming = p.incoming.tail) ∧
          (0 < i64wrap (p.queued - interval) →
            (updateQueuesPad interval p).buffer = p.buffer ∧
            (updateQueuesPad interval p).incoming = p.incoming)) := by
  refine ⟨if mp.queued ≤ 0 then
      (if mix.fps_n = 0 then maxInt64
       else ((scaleInt gstSecond mix.fps_d.toNat mix.fps_n.toNat : Nat) : Int))
    else mp.queued, ?_, ?_, ?_, ?_, ?_⟩
  · intro hq
    rw [if_neg (by omega : ¬ mp.queued ≤ 0)]
  · intro hq hf
    rw [if_pos hq, if_pos hf]
  · intro hq hf
    rw [if_pos hq, if_neg hf]
  · unfold gst_videomixer_update_queues
    rw [hmp]
  · intro p _
    exact updateQueuesPad_spec _ p

/-- Witness mixer for queue accounting: the master holds a buffer with two
seconds queued, a second pad holds a buffer nearly exhausted. -/
def updateQueuesWitnessMix : Mixer :=
  { pads := [
      { id := 0, queued := 2000000000, buffer := some { timestamp := 0, duration := 2000000000 },
        incoming := [{ timestamp := 0, duration := 2000000000 }] },
      { id := 1, queued := 1000000000, buffer := some { timestamp := 0, duration := 1000000000 },
        incoming := [{ timestamp := 0, duration := 1000000000 }] }],
    master := some 0, fps_n := 10, fps_d := 1 }

/-- Witness for C4: at the concrete mixer the master pad is found and the
accounting equation holds. -/
theorem update_queues_accounting_witness :
    findMaster updateQueuesWitnessMix =
      some { id := 0, queued := 2000000000,
             buffer := some { timestamp := 0, duration := 2000000000 },
             incoming := [{ timestamp := 0, duration := 2000000000 }] } ∧
    ∃ interval : Int,
      (0 < (2000000000 : Int) → interval = 2000000000) ∧
      (gst_videomixer_update_queues updateQueuesWitnessMix).pads =
        updateQueuesWitnessMix.pads.map (updateQueuesPad interval) := by
  have h := update_queues_accounting updateQueuesWitnessMix
    { id := 0, queued := 2000000000,
      buffer := some { timestamp := 0, duration := 2000000000 },
      incoming := [{ timestamp := 0, duration := 2000000000 }] } (by decide)
  obtain ⟨interval, h1, _, _, h4, _⟩ := h
  exact ⟨by decide, interval, fun _ => h1 (by decide), h4⟩

/-- Counterexample mixer for C4 as stated: the master pad holds no buffer
and has a positive queued counter. -/
def updateQueuesCexMix : Mixer :=
  { pads := [{ id := 0, queued := 10, buffer := none }],
    master := some 0, fps_n := 10, fps_d := 1 }

/-- C4 counterexample: the output interval is the master's queued duration
10, so the claim predicts every counter drops by 10 (here to 0), but the
code leaves the counter of the bufferless pad at 10. -/
theorem update_queues_skips_bufferless_cex :
    findMaster updateQueuesCexMix = some { id := 0, queued := 10, buffer := none } ∧
    (gst_videomixer_update_queues updateQueuesCexMix).pads.map (fun p => p.queued) =
      [10] ∧
    updateQueuesCexMix.pads.map (fun p => i64wrap (p.queued - 10)) = [0] ∧
    ([10] : List Int) ≠ [0] := by decide

/-- C9 (amended): the stop and teardown reset restores every mixer-wide
field to its startup value (gst_videomixer_init itself initializes by
calling gst_videomixer_reset) and releases every pad's held frame, but it
leaves the per-pad queued-duration counters unchanged rather than zeroing
them. -/
theorem reset_state (mix : Mixer) :
    (gst_videomixer_reset mix).in_width = 0 ∧
    (gst_videomixer_reset mix).in_height = 0 ∧
    (gst_videomixer_reset mix).out_width = 0 ∧
    (gst_videomixer_reset mix).out_height = 0 ∧
    (gst_videomixer_reset mix).fps_n = 0 ∧
    (gst_videomixer_reset mix).fps_d = 0 ∧
    (gst_videomixer_reset mix).par_n = 1 ∧
    (gst_videomixer_reset mix).par_d = 1 ∧
    (gst_videomixer_reset mix).setcaps = false ∧
    (gst_videomixer_reset mix).sendseg = false ∧
    (gst_videomixer_reset mix).segment_position = 0 ∧
    (gst_videomixer_reset mix).segment = segmentInit ∧
    (gst_videomixer_reset mix).proportion = 1 / 2 ∧
    (gst_videomixer_reset mix).earliest_time = clockTimeNone ∧
    (gst_videomixer_reset mix).fmt = 0 ∧
    (gst_videomixer_reset mix).last_ts = 0 ∧
    (gst_videomixer_reset mix).last_duration = clockTimeNone ∧
    (gst_videomixer_reset mix).flush_stop_pending = false ∧
    (gst_videomixer_reset mix).method = ScaleMethod.bilinear ∧
    (gst_videomixer_reset mix).pads =
      mix.pads.map (fun p => { p with buffer := none }) ∧
    (gst_videomixer_reset mix).pads.map (fun p => p.queued) =
      mix.pads.map (fun p => p.queued) := by
  unfold gst_videomixer_reset gst_videomixer_reset_qos gst_videomixer_update_qos
  simp [List.map_map]

/-- Counterexample mixer for C9 as stated: one pad holding a frame with a
nonzero queued counter. -/
def resetCexMix : Mixer := { pads := [{ id := 0, queued := 7, buffer := some {} }] }

/-- C9 counterexample: reset releases the held frame but leaves the pad's
queued counter at 7 instead of zeroing it as the claim states. -/
theorem reset_keeps_queued_cex :
    (gst_videomixer_reset resetCexMix).pads.map (fun p => p.queued) = [7] ∧
    (gst_videomixer_reset resetCexMix).pads.map (fun p => p.buffer.isSome) =
      [false] ∧
    ([7] : List Int) ≠ [0] := by decide

/-- C2 (amended): a cycle that passes the negotiation guard declares
end-of-stream — wrong-state flow, an end-of-stream event pushed downstream
and no output frame produced — exactly when, after the fetch attempt, every
pad either holds no buffer or has an invalid queued counter. -/
theorem eos_declaration (mix : Mixer) (h : mix.in_width ≠ 0) :
    ((gst_videomixer_collected mix).2.1 = FlowReturn.wrongState ∧
        OutEvent.eos ∈ (gst_videomixer_collected mix).2.2 ∧
        pushedFrames (gst_videomixer_collected mix).2.2 = []) ↔
      (mix.pads.all fun p => !padAlive (fetchPad p)) = true := by
  have heos : (gst_videomixer_fill_queues (clearFlushStop mix).1).2.1 =
      (mix.pads.all fun p => !padAlive (fetchPad p)) := by
    rw [fill_queues_eos, clearFlushStop_pads]
  unfold gst_videomixer_collected
  rw [if_neg h]
  dsimp only
  rw [heos]
  cases hall : mix.pads.all fun p => !padAlive (fetchPad p)
  · rw [if_neg (by simp : ¬(false = true))]
    simp only [Bool.false_eq_true, iff_false]
    intro hcon
    cases hm : findMaster
        (negotiateCaps (gst_videomixer_fill_queues (clearFlushStop mix).1).1) with
    | none =>
      rw [hm] at hcon
      simp at hcon
    | some mp =>
      rw [hm] at hcon
      rcases hcon with ⟨hflow, -, -⟩
      revert hflow
      split <;> try simp
      split <;> simp
  · rw [if_pos rfl]
    refine iff_of_true ⟨rfl, by simp, ?_⟩ rfl
    rw [pushedFrames_append, pushedFrames_append, clearFlushStop_pushedFrames,
      fill_queues_pushedFrames]
    rfl

/-- Witness mixer for the end-of-stream condition: a single exhausted pad
(no held buffer, nothing incoming, counter at zero). -/
def eosWitnessMix : Mixer :=
  { pads := [{ id := 0, in_width := 320, in_height := 240, fps_n := 10, fps_d := 1,
               queued := 0, buffer := none, incoming := [] }],
    master := some 0, in_width := 320, in_height := 240,
    out_width := 320, out_height := 240, fps_n := 10, fps_d := 1 }

/-- Witness for C2: at the concrete exhausted mixer the amended condition
holds, so the cycle declares end-of-stream. -/
theorem eos_declaration_witness :
    eosWitnessMix.in_width ≠ 0 ∧
    (gst_videomixer_collected eosWitnessMix).2.1 = FlowReturn.wrongState ∧
    OutEvent.eos ∈ (gst_videomixer_collected eosWitnessMix).2.2 := by
  have h := (eos_declaration eosWitnessMix (by decide)).mpr (by decide)
  exact ⟨by decide, h.1, h.2.1⟩

/-- Counterexample mixer for C2 as stated: a single pad with frame rate 0/0
whose incoming buffer carries no duration, so fetching it leaves the queued
counter invalid while the pad holds the frame. -/
def eosCexMix : Mixer :=
  { pads := [{ id := 0, in_width := 320, in_height := 240, fps_n := 0, fps_d := 0,
               queued := 0, buffer := none,
               incoming := [{ timestamp := 0, duration := clockTimeNone }] }],
    master := some 0, in_width := 320, in_height := 240,
    out_width := 320, out_height := 240 }

/-- C2 counterexample: the cycle declares end-of-stream (wrong-state flow,
end-of-stream pushed) although the pad still holds an input frame, so the
claimed condition that every port holds no frame fails. -/
theorem eos_despite_held_frame_cex :
    (gst_videomixer_collected eosCexMix).2.1 = FlowReturn.wrongState ∧
    OutEvent.eos ∈ (gst_videomixer_collected eosCexMix).2.2 ∧
    (gst_videomixer_collected eosCexMix).1.pads.map (fun p => p.buffer.isSome) =
      [true] := by decide

/-- C1 (amended): geometry negotiation selects as master the port with the
numerically fastest frame rate under cross multiplication — the candidate
replaces the current master exactly when current.fps_n * candidate.fps_d <
candidate.fps_n * current.fps_d, the first port considered (or any port
compared while the current master has rate 0/0) winning by default and ties
keeping the earlier master — and the negotiated output rate and
pixel-aspect-ratio equal the master's exactly. -/
theorem master_selection_fastest (pads : List Pad) (mix : Mixer)
    (hne : pads ≠ []) :
    ((computeGeometry pads).master.map (fun p => (p.id, p.fps_n, p.fps_d)) =
        selectFastest pads) ∧
    (computeGeometry pads).master.isSome ∧
    (∀ q, (computeGeometry pads).master = some q →
        q ∈ pads ∧
        (computeGeometry pads).fps_n = q.fps_n ∧
        (computeGeometry pads).fps_d = q.fps_d ∧
        (computeGeometry pads).par_n = q.par_n ∧
        (computeGeometry pads).par_d = q.par_d) ∧
    ((gst_videomixer_set_master_geometry mix).master =
        (computeGeometry mix.pads).master.map (fun p => p.id) ∧
      (gst_videomixer_set_master_geometry mix).fps_n =
        (computeGeometry mix.pads).fps_n ∧
      (gst_videomixer_set_master_geometry mix).fps_d =
        (computeGeometry mix.pads).fps_d ∧
      (gst_videomixer_set_master_geometry mix).par_n =
        (computeGeometry mix.pads).par_n ∧
      (gst_videomixer_set_master_geometry mix).par_d =
        (computeGeometry mix.pads).par_d) := by
  obtain ⟨hcur, hnone, hsome⟩ := computeGeometry_geomCur pads
  refine ⟨hcur.symm, computeGeometry_master_isSome pads hne, ?_, ?_⟩
  · intro q hq
    have hmem : q ∈ pads := by
      unfold computeGeometry at hq
      rcases foldl_geom_master_mem pads _ q hq with h2 | h2
      · cases h2
      · exact h2
    obtain ⟨h1, h2, h3, h4⟩ := hsome q hq
    exact ⟨hmem, h1, h2, h3, h4⟩
  · obtain ⟨_, g2, _, _, g5, g6, g7, g8⟩ := set_master_geometry_fields mix
    exact ⟨g2, g5, g6, g7, g8⟩

/-- Witness pads and mixer for the master selection theorem. -/
def masterWitnessPads : List Pad :=
  [{ id := 0, in_width := 100, in_height := 100, fps_n := 5, fps_d := 1,
     par_n := 1, par_d := 1 },
   { id := 1, in_width := 320, in_height := 240, fps_n := 10, fps_d := 1,
     par_n := 1, par_d := 1 }]

/-- Witness mixer whose pads are the witness pads. -/
def masterWitnessMix : Mixer := { pads := masterWitnessPads }

/-- Witness for C1: at the two concrete pads the code's selection matches
the fastest-rate fold and a master exists. -/
theorem master_selection_fastest_witness :
    masterWitnessPads ≠ [] ∧
    ((computeGeometry masterWitnessPads).master.map
        (fun p => (p.id, p.fps_n, p.fps_d)) = selectFastest masterWitnessPads) ∧
    (computeGeometry masterWitnessPads).master.isSome := by
  have h := master_selection_fastest masterWitnessPads masterWitnessMix (by decide)
  exact ⟨by decide, h.1, h.2.1⟩

/-- Counterexample pads for C1 as stated: a 5 fps port before a 10 fps
port. -/
def masterCexPads : List Pad :=
  [{ id := 0, in_width := 100, in_height := 100, fps_n := 5, fps_d := 1,
     par_n := 1, par_d := 1 },
   { id := 1, in_width := 320, in_height := 240, fps_n := 10, fps_d := 1,
     par_n := 2, par_d := 1 }]

/-- C1 counterexample: the slowest-rate selection described by the claim
picks the 5 fps port (id 0), but the code selects the 10 fps port (id 1)
and negotiates the 10/1 rate, so the master is the fastest port, not the
slowest. -/
theorem master_selection_slowest_cex :
    selectSlowest masterCexPads = some (0, 5, 1) ∧
    (computeGeometry masterCexPads).master.map (fun p => p.id) = some 1 ∧
    (computeGeometry masterCexPads).fps_n = 10 ∧
    (computeGeometry masterCexPads).fps_d = 1 ∧
    (computeGeometry masterCexPads).master.map (fun p => (p.id, p.fps_n, p.fps_d)) ≠
      some (0, 5, 1) := by decide

/-- C7: after geometry negotiation the negotiated width and height are the
maxima of the pads' native widths and heights (zero with no pads), and
releasing a pad renegotiates over the remaining pads, so removing the pad
holding the maximum shrinks the result accordingly. -/
theorem output_geometry_max (pads : List Pad) (mix : Mixer) (i : Nat)
    (hi : i < mix.pads.length)
    (hw : ∀ p ∈ pads, 0 ≤ p.in_width ∧ 0 ≤ p.in_height) :
    (∀ p ∈ pads, p.in_width ≤ (computeGeometry pads).width ∧
        p.in_height ≤ (computeGeometry pads).height) ∧
    (pads = [] → (computeGeometry pads).width = 0 ∧
        (computeGeometry pads).height = 0) ∧
    (pads ≠ [] →
        (∃ p ∈ pads, (computeGeometry pads).width = p.in_width) ∧
        (∃ p ∈ pads, (computeGeometry pads).height = p.in_height)) ∧
    ((gst_videomixer_release_pad mix i).pads = mix.pads.eraseIdx i ∧
      (gst_videomixer_release_pad mix i).in_width =
        (computeGeometry (mix.pads.eraseIdx i)).width ∧
      (gst_videomixer_release_pad mix i).in_height =
        (computeGeometry (mix.pads.eraseIdx i)).height) := by
  refine ⟨?_, ?_, ?_, ?_⟩
  · intro p hp
    exact ⟨foldl_geom_width_ge pads _ p hp, foldl_geom_height_ge pads _ p hp⟩
  · intro hnil
    subst hnil
    exact ⟨rfl, rfl⟩
  · intro hne
    obtain ⟨p0, hp0⟩ := List.exists_mem_of_ne_nil pads hne
    constructor
    · rcases foldl_geom_width_attained pads {} with hat | ⟨p, hp, hat⟩
      · refine ⟨p0, hp0, ?_⟩
        have h1 : p0.in_width ≤ (computeGeometry pads).width :=
          foldl_geom_width_ge pads _ p0 hp0
        have h2 : 0 ≤ p0.in_width := (hw p0 hp0).1
        have hat0 : (computeGeometry pads).width = 0 := by
          unfold computeGeometry
          rw [hat]
        omega
      · exact ⟨p, hp, hat⟩
    · rcases foldl_geom_height_attained pads {} with hat | ⟨p, hp, hat⟩
      · refine ⟨p0, hp0, ?_⟩
        have h1 : p0.in_height ≤ (computeGeometry pads).height :=
          foldl_geom_height_ge pads _ p0 hp0
        have h2 : 0 ≤ p0.in_height := (hw p0 hp0).2
        have hat0 : (computeGeometry pads).height = 0 := by
          unfold computeGeometry
          rw [hat]
        omega
      · exact ⟨p, hp, hat⟩
  · unfold gst_videomixer_release_pad
    rw [if_pos hi]
    obtain ⟨g1, _, g3, g4, _, _, _, _⟩ :=
      set_master_geometry_fields { mix with pads := mix.pads.eraseIdx i }
    exact ⟨g1, g3, g4⟩

/-- Witness mixer for the output-geometry theorem. -/
def geometryWitnessMix : Mixer :=
  { pads := [{ id := 0, in_width := 320, in_height := 240, fps_n := 10, fps_d := 1 },
             { id := 1, in_width := 100, in_height := 100, fps_n := 5, fps_d := 1 }] }

/-- Witness for C7: at the concrete pads the negotiated geometry attains the
maxima, and releasing the pad holding the maximum shrinks the negotiated
width. -/
theorem output_geometry_max_witness :
    (0 < geometryWitnessMix.pads.length) ∧
    (∀ p ∈ geometryWitnessMix.pads, 0 ≤ p.in_width ∧ 0 ≤ p.in_height) ∧
    (gst_videomixer_release_pad geometryWitnessMix 0).in_width =
      (computeGeometry (geometryWitnessMix.pads.eraseIdx 0)).width ∧
    (gst_videomixer_release_pad geometryWitnessMix 0).in_width = 100 := by
  have h := output_geometry_max geometryWitnessMix.pads geometryWitnessMix 0
    (by decide) (by decide)
  refine ⟨by decide, by decide, h.2.2.2.2.1, ?_⟩
  rw [h.2.2.2.2.1]
  decide

/-- C3 (amended): when the master holds a frame the derived output
timestamp is the frame timestamp mapped to running time through the
master's segment and the duration is the frame's buffer duration; when the
master holds no frame the cycle reuses the stored last output timestamp and
duration — which the bookkeeping then advances by that duration, so
consecutive master-stall cycles emit timestamps advancing by the last
duration rather than holding steady.  A processed cycle pushes exactly the
derived pair. -/
theorem output_timestamp_derivation (mix m3 : Mixer) (mp : Pad)
    (h : mix.in_width ≠ 0)
    (heos : (gst_videomixer_fill_queues (clearFlushStop mix).1).2.1 = false)
    (hm3 : m3 = negotiateCaps (gst_videomixer_fill_queues (clearFlushStop mix).1).1)
    (hmp : findMaster m3 = some mp) :
    (∀ b, mp.buffer = some b →
        deriveTimestamp m3 mp =
          (segToRunningTime mp.segment b.timestamp, b.duration)) ∧
    (mp.buffer = none →
        deriveTimestamp m3 mp = (m3.last_ts, m3.last_duration)) ∧
    (gst_videomixer_do_qos (recordTimes m3 mp (deriveTimestamp m3 mp))
          (deriveTimestamp m3 mp).1 = true →
        pushedFrames (gst_videomixer_collected mix).2.2 =
          [((deriveTimestamp m3 mp).1, (deriveTimestamp m3 mp).2)]) ∧
    (mp.buffer = none → (deriveTimestamp m3 mp).2 ≠ clockTimeNone →
        (gst_videomixer_collected mix).1.last_ts =
          u64wrap (m3.last_ts + (deriveTimestamp m3 mp).2)) := by
  refine ⟨?_, ?_, ?_, ?_⟩
  · intro b hb
    unfold deriveTimestamp
    rw [hb]
  · intro hb
    unfold deriveTimestamp
    rw [hb]
  · intro hq
    rw [collected_process_eq mix m3 mp h heos hm3 hmp, if_pos hq]
    dsimp only
    rw [pushedFrames_append, pushedFrames_append, clearFlushStop_pushedFrames,
      fill_queues_pushedFrames]
    rfl
  · intro hb hdur
    rw [collected_process_eq mix m3 mp h heos hm3 hmp]
    by_cases hq : gst_videomixer_do_qos (recordTimes m3 mp (deriveTimestamp m3 mp))
        (deriveTimestamp m3 mp).1 = true
    · rw [if_pos hq]
      dsimp only
      rw [update_queues_last_ts, recordTimes_last_ts _ _ _ hdur]
      simp [hb]
    · rw [if_neg hq]
      dsimp only
      rw [update_queues_last_ts, recordTimes_last_ts _ _ _ hdur]
      simp [hb]

/-- Witness mixer for the timestamp derivation: the master (10 fps, id 0)
is stalled with nothing incoming while pad 1 still holds data; the stored
last output pair is (100, 10). -/
def tsWitnessMix : Mixer :=
  { pads := [
      { id := 0, in_width := 320, in_height := 240, fps_n := 10, fps_d := 1,
        par_n := 1, par_d := 1, queued := 0, buffer := none, incoming := [] },
      { id := 1, in_width := 100, in_height := 100, fps_n := 5, fps_d := 1,
        par_n := 1, par_d := 1, queued := 5000000000,
        buffer := some { timestamp := 0, duration := 200000000 },
        incoming := [{ timestamp := 0, duration := 200000000 }] }],
    master := some 0, in_width := 320, in_height := 240,
    out_width := 320, out_height := 240, fps_n := 10, fps_d := 1,
    last_ts := 100, last_duration := 10 }

/-- The mixer state reaching timestamp derivation in the witness cycle. -/
def tsWitnessM3 : Mixer :=
  negotiateCaps (gst_videomixer_fill_queues (clearFlushStop tsWitnessMix).1).1

/-- The master pad found in the witness cycle. -/
def tsWitnessMp : Pad :=
  { id := 0, in_width := 320, in_height := 240, fps_n := 10, fps_d := 1,
    par_n := 1, par_d := 1, queued := 0, buffer := none, incoming := [] }

/-- Witness for C3: the witness cycle reaches derivation with a stalled
master and pushes exactly the derived pair. -/
theorem output_timestamp_derivation_witness :
    tsWitnessMix.in_width ≠ 0 ∧
    (gst_videomixer_fill_queues (clearFlushStop tsWitnessMix).1).2.1 = false ∧
    findMaster tsWitnessM3 = some tsWitnessMp ∧
    pushedFrames (gst_videomixer_collected tsWitnessMix).2.2 =
      [((deriveTimestamp tsWitnessM3 tsWitnessMp).1,
        (deriveTimestamp tsWitnessM3 tsWitnessMp).2)] := by
  have hthm := output_timestamp_derivation tsWitnessMix tsWitnessM3 tsWitnessMp
    (by decide) (by decide) rfl (by decide)
  exact ⟨by decide, by decide, by decide, hthm.2.2.1 (by decide)⟩

/-- Counterexample mixer for C3 as stated: the master (id 0) stalls while
pad 1 keeps supplying; the last emitted pair was (100, 10). -/
def tsCexMix : Mixer :=
  { pads := [
      { id := 0, in_width := 320, in_height := 240, fps_n := 10, fps_d := 1,
        par_n := 1, par_d := 1, queued := 0, buffer := none, incoming := [] },
      { id := 1, in_width := 100, in_height := 100, fps_n := 5, fps_d := 1,
        par_n := 1, par_d := 1, queued := 5000000000,
        buffer := some { timestamp := 0, duration := 200000000 },
        incoming := [{ timestamp := 0, duration := 200000000 }] }],
    master := some 0, in_width := 320, in_height := 240,
    out_width := 320, out_height := 240, fps_n := 10, fps_d := 1,
    last_ts := 100, last_duration := 10 }

/-- C3 counterexample: two consecutive master-stall cycles emit (100, 10)
and then (110, 10) — the emitted timestamp advances by the last duration
instead of staying at the previously emitted timestamp as the claim
states. -/
theorem stall_timestamp_advances_cex :
    (tsCexMix.pads.map fun p => (p.id, p.buffer.isSome)) =
      [(0, false), (1, true)] ∧
    tsCexMix.master = some 0 ∧
    pushedFrames (gst_videomixer_collected tsCexMix).2.2 = [(100, 10)] ∧
    ((gst_videomixer_collected tsCexMix).1.pads.map fun p => (p.id, p.buffer.isSome)) =
      [(0, false), (1, true)] ∧
    pushedFrames
        (gst_videomixer_collected (gst_videomixer_collected tsCexMix).1).2.2 =
      [(110, 10)] ∧
    (110 : Nat) ≠ 100 := by decide

/-- C6: with no valid QoS observation or an invalid candidate timestamp the
frame is processed; otherwise it is dropped exactly when the timestamp
mapped to running time is valid and at most the earliest acceptable
timestamp; a dropped cycle skips the output push, still runs queue
accounting, and returns success. -/
theorem qos_drop_decision (mix m3 : Mixer) (mp : Pad) :
    (∀ t, (t = clockTimeNone ∨ mix.earliest_time = clockTimeNone) →
        gst_videomixer_do_qos mix t = true) ∧
    (∀ t, t ≠ clockTimeNone → mix.earliest_time ≠ clockTimeNone →
        (gst_videomixer_do_qos mix t = false ↔
          (segToRunningTime mix.segment t ≠ clockTimeNone ∧
            segToRunningTime mix.segment t ≤ mix.earliest_time))) ∧
    (mix.in_width ≠ 0 →
      (gst_videomixer_fill_queues (clearFlushStop mix).1).2.1 = false →
      m3 = negotiateCaps (gst_videomixer_fill_queues (clearFlushStop mix).1).1 →
      findMaster m3 = some mp →
      gst_videomixer_do_qos (recordTimes m3 mp (deriveTimestamp m3 mp))
          (deriveTimestamp m3 mp).1 = false →
      (gst_videomixer_collected mix).2.1 = FlowReturn.ok ∧
      pushedFrames (gst_videomixer_collected mix).2.2 = [] ∧
      (gst_videomixer_collected mix).1 =
        gst_videomixer_update_queues (recordTimes m3 mp (deriveTimestamp m3 mp))) := by
  refine ⟨?_, ?_, ?_⟩
  · intro t ht
    unfold gst_videomixer_do_qos
    rcases ht with ht | ht
    · rw [if_pos ht]
    · by_cases ht2 : t = clockTimeNone
      · rw [if_pos ht2]
      · rw [if_neg ht2, if_pos ht]
  · intro t ht he
    unfold gst_videomixer_do_qos
    rw [if_neg ht, if_neg he]
    dsimp only
    by_cases hc : segToRunningTime mix.segment t ≠ clockTimeNone ∧
        segToRunningTime mix.segment t ≤ mix.earliest_time
    · rw [if_pos hc]
      simp [hc]
    · rw [if_neg hc]
      simp [hc]
  · intro hw heos hm3 hmp hdrop
    rw [collected_process_eq mix m3 mp hw heos hm3 hmp,
      if_neg (by simp [hdrop] : ¬(gst_videomixer_do_qos
        (recordTimes m3 mp (deriveTimestamp m3 mp))
        (deriveTimestamp m3 mp).1 = true))]
    refine ⟨rfl, ?_, rfl⟩
    rw [pushedFrames_append, clearFlushStop_pushedFrames, fill_queues_pushedFrames]
    rfl

/-- Witness mixer for the QoS decision: one live pad, a valid observation
one second out, so the cycle's derived timestamp 0 is dropped. -/
def qosDropWitnessMix : Mixer :=
  { pads := [
      { id := 0, in_width := 320, in_height := 240, fps_n := 10, fps_d := 1,
        par_n := 1, par_d := 1, queued := 100000000,
        buffer := some { timestamp := 0, duration := 100000000 },
        incoming := [{ timestamp := 0, duration := 100000000 }] }],
    master := some 0, in_width := 320, in_height := 240,
    out_width := 320, out_height := 240, fps_n := 10, fps_d := 1,
    earliest_time := 1000000000 }

/-- The mixer state reaching the QoS decision in the witness cycle. -/
def qosDropWitnessM3 : Mixer :=
  negotiateCaps (gst_videomixer_fill_queues (clearFlushStop qosDropWitnessMix).1).1

/-- The master pad found in the witness cycle. -/
def qosDropWitnessMp : Pad :=
  { id := 0, in_width := 320, in_height := 240, fps_n := 10, fps_d := 1,
    par_n := 1, par_d := 1, queued := 100000000,
    buffer := some { timestamp := 0, duration := 100000000 },
    incoming := [{ timestamp := 0, duration := 100000000 }] }

/-- Witness for C6: an invalid timestamp is processed, the drop rule holds
at a concrete timestamp, and the concrete dropped cycle returns success
with no pushed frame. -/
theorem qos_drop_decision_witness :
    gst_videomixer_do_qos qosDropWitnessMix clockTimeNone = true ∧
    ((500000000 : Nat) ≠ clockTimeNone) ∧
    (gst_videomixer_do_qos qosDropWitnessMix 500000000 = false ↔
      (segToRunningTime qosDropWitnessMix.segment 500000000 ≠ clockTimeNone ∧
        segToRunningTime qosDropWitnessMix.segment 500000000 ≤
          qosDropWitnessMix.earliest_time)) ∧
    (gst_videomixer_collected qosDropWitnessMix).2.1 = FlowReturn.ok ∧
    pushedFrames (gst_videomixer_collected qosDropWitnessMix).2.2 = [] := by
  have h := qos_drop_decision qosDropWitnessMix qosDropWitnessM3 qosDropWitnessMp
  have hC := h.2.2 (by decide) (by decide) rfl (by decide) (by decide)
  exact ⟨h.1 clockTimeNone (Or.inl rfl), by decide,
    h.2.1 500000000 (by decide) (by decide), hC.1, hC.2.1⟩

/-- C10: every cycle that reaches timestamp derivation advances the stored
last output timestamp by the derived duration whenever that duration is
valid — independently of the QoS decision, so it advances even for frames
the throttle drops. -/
theorem last_ts_advances (mix m3 : Mixer) (mp : Pad)
    (h : mix.in_width ≠ 0)
    (heos : (gst_videomixer_fill_queues (clearFlushStop mix).1).2.1 = false)
    (hm3 : m3 = negotiateCaps (gst_videomixer_fill_queues (clearFlushStop mix).1).1)
    (hmp : findMaster m3 = some mp)
    (hdur : (deriveTimestamp m3 mp).2 ≠ clockTimeNone) :
    (gst_videomixer_collected mix).1.last_ts =
      u64wrap ((if mp.buffer.isSome then (deriveTimestamp m3 mp).1 else m3.last_ts) +
        (deriveTimestamp m3 mp).2) := by
  rw [collected_process_eq mix m3 mp h heos hm3 hmp]
  by_cases hq : gst_videomixer_do_qos (recordTimes m3 mp (deriveTimestamp m3 mp))
      (deriveTimestamp m3 mp).1 = true
  · rw [if_pos hq]
    dsimp only
    rw [update_queues_last_ts, recordTimes_last_ts _ _ _ hdur]
  · rw [if_neg hq]
    dsimp only
    rw [update_queues_last_ts, recordTimes_last_ts _ _ _ hdur]

/-- Witness mixer for the last-timestamp advance: same shape as the QoS
drop scenario, so the advance is demonstrated on a dropped frame. -/
def advWitnessMix : Mixer :=
  { pads := [
      { id := 0, in_width := 320, in_height := 240, fps_n := 10, fps_d := 1,
        par_n := 1, par_d := 1, queued := 100000000,
        buffer := some { timestamp := 0, duration := 100000000 },
        incoming := [{ timestamp := 0, duration := 100000000 }] }],
    master := some 0, in_width := 320, in_height := 240,
    out_width := 320, out_height := 240, fps_n := 10, fps_d := 1,
    earliest_time := 1000000000 }

/-- The mixer state reaching derivation in the advance witness cycle. -/
def advWitnessM3 : Mixer :=
  negotiateCaps (gst_videomixer_fill_queues (clearFlushStop advWitnessMix).1).1

/-- The master pad found in the advance witness cycle. -/
def advWitnessMp : Pad :=
  { id := 0, in_width := 320, in_height := 240, fps_n := 10, fps_d := 1,
    par_n := 1, par_d := 1, queued := 100000000,
    buffer := some { timestamp := 0, duration := 100000000 },
    incoming := [{ timestamp := 0, duration := 100000000 }] }

/-- Witness for C10: the concrete cycle drops its frame by QoS yet the
stored last output timestamp still advances by the derived duration. -/
theorem last_ts_advances_witness :
    advWitnessMix.in_width ≠ 0 ∧
    (deriveTimestamp advWitnessM3 advWitnessMp).2 ≠ clockTimeNone ∧
    gst_videomixer_do_qos
        (recordTimes advWitnessM3 advWitnessMp
          (deriveTimestamp advWitnessM3 advWitnessMp))
        (deriveTimestamp advWitnessM3 advWitnessMp).1 = false ∧
    (gst_videomixer_collected advWitnessMix).1.last_ts =
      u64wrap ((if advWitnessMp.buffer.isSome then
          (deriveTimestamp advWitnessM3 advWitnessMp).1
        else advWitnessM3.last_ts) +
        (deriveTimestamp advWitnessM3 advWitnessMp).2) := by
  have h := last_ts_advances advWitnessMix advWitnessM3 advWitnessMp
    (by decide) (by decide) rfl (by decide) (by decide)
  exact ⟨by decide, by decide, by decide, h⟩

end VideoMixer
